import Mathlib

/-!
Verification development for the `xr_hand` repository (src/constants.rs, src/main.rs).

The Rust code drives VR hand-presence physics: a table of 26 calibrated hand
joints per hand, a bone-topology map, two startup spawners (tracked entities and
physics bodies), and a per-fixed-tick reconciliation step that velocity-matches
dynamic bodies to the tracked skeleton.

Shallow embedding conventions:
* `f32` values are modelled as exact rationals (`ℚ`); every numeric literal is
  transcribed verbatim from the source.
* Bevy's `Vec3` / `Quat` / `Transform` are modelled componentwise over `ℚ`.
  `Transform::forward()` is `rotation * -Z` (glam's `mul_vec3` formula).
* `Transform::looking_at(target, up).rotation.mul_vec3(-Z)` equals the
  normalized direction `target - translation`; the reconciliation step embeds
  that vector directly.  Since square roots of rationals need not be rational,
  the measured direction length is carried alongside each tracked input
  (`TrackedPair.dirLen`), constrained where needed by
  `dirLen * dirLen = lengthSq direction`.
* Rust `panic!` is modelled as `Option.none`; ECS `commands.spawn` calls are
  modelled as the list of records the startup system emits.
-/

namespace XrHand

/-- Componentwise rational model of bevy's `Vec3`. -/
structure Vec3 where
  x : ℚ
  y : ℚ
  z : ℚ
deriving DecidableEq, Repr, Inhabited

def Vec3.zero : Vec3 := ⟨0, 0, 0⟩

def Vec3.add (a b : Vec3) : Vec3 := ⟨a.x + b.x, a.y + b.y, a.z + b.z⟩

def Vec3.sub (a b : Vec3) : Vec3 := ⟨a.x - b.x, a.y - b.y, a.z - b.z⟩

def Vec3.smul (c : ℚ) (v : Vec3) : Vec3 := ⟨c * v.x, c * v.y, c * v.z⟩

/-- Componentwise division by a scalar, as in `Vec3 / f32`. -/
def Vec3.divScalar (v : Vec3) (c : ℚ) : Vec3 := ⟨v.x / c, v.y / c, v.z / c⟩

/-- The cross product, as in `Vec3::cross`. -/
def Vec3.cross (a b : Vec3) : Vec3 :=
  ⟨a.y * b.z - a.z * b.y, a.z * b.x - a.x * b.z, a.x * b.y - a.y * b.x⟩

/-- Squared euclidean length (`Vec3::length_squared`). -/
def Vec3.lengthSq (v : Vec3) : ℚ := v.x * v.x + v.y * v.y + v.z * v.z

/-- Componentwise rational model of bevy's `Quat` (`from_xyzw` field order). -/
structure Quat where
  x : ℚ
  y : ℚ
  z : ℚ
  w : ℚ
deriving DecidableEq, Repr, Inhabited

def Quat.xyz (q : Quat) : Vec3 := ⟨q.x, q.y, q.z⟩

/-- glam's `Quat::mul_vec3`: `v + 2 * cross(q.xyz, cross(q.xyz, v) + q.w * v)`. -/
def Quat.mulVec3 (q : Quat) (v : Vec3) : Vec3 :=
  Vec3.add v (Vec3.smul 2 (Vec3.cross q.xyz (Vec3.add (Vec3.cross q.xyz v) (Vec3.smul q.w v))))

/-- bevy `Transform`, restricted to the fields the code reads/writes
(scale is never touched). -/
structure Transform where
  translation : Vec3
  rotation : Quat
deriving DecidableEq, Repr, Inhabited

/-- `Transform::forward()`: the rotated `-Z` axis. -/
def Transform.forward (t : Transform) : Vec3 := t.rotation.mulVec3 ⟨0, 0, -1⟩

/-- `bevy_oxr::xr_input::Hand`. -/
inductive Hand where
  | Left
  | Right
deriving DecidableEq, Repr, Inhabited, Fintype

/-- `HandJoint` from src/constants.rs. -/
structure HandJoint where
  position : Vec3
  position_valid : Bool
  position_tracked : Bool
  orientation : Quat
  orientation_valid : Bool
  orientation_tracked : Bool
  radius : ℚ
deriving DecidableEq, Repr, Inhabited

/-- `PhysicsHandBone` from src/constants.rs, 26 variants in source order. -/
inductive PhysicsHandBone where
  | Palm
  | Wrist
  | ThumbMetacarpal
  | ThumbProximal
  | ThumbDistal
  | ThumbTip
  | IndexMetacarpal
  | IndexProximal
  | IndexIntermediate
  | IndexDistal
  | IndexTip
  | MiddleMetacarpal
  | MiddleProximal
  | MiddleIntermediate
  | MiddleDistal
  | MiddleTip
  | RingMetacarpal
  | RingProximal
  | RingIntermediate
  | RingDistal
  | RingTip
  | LittleMetacarpal
  | LittleProximal
  | LittleIntermediate
  | LittleDistal
  | LittleTip
deriving DecidableEq, Repr, Inhabited, Fintype

/-- The canonical ordinal of a `PhysicsHandBone`: its position in the source
enumeration (0..25). -/
def PhysicsHandBone.boneIndex : PhysicsHandBone → Nat
  | .Palm => 0
  | .Wrist => 1
  | .ThumbMetacarpal => 2
  | .ThumbProximal => 3
  | .ThumbDistal => 4
  | .ThumbTip => 5
  | .IndexMetacarpal => 6
  | .IndexProximal => 7
  | .IndexIntermediate => 8
  | .IndexDistal => 9
  | .IndexTip => 10
  | .MiddleMetacarpal => 11
  | .MiddleProximal => 12
  | .MiddleIntermediate => 13
  | .MiddleDistal => 14
  | .MiddleTip => 15
  | .RingMetacarpal => 16
  | .RingProximal => 17
  | .RingIntermediate => 18
  | .RingDistal => 19
  | .RingTip => 20
  | .LittleMetacarpal => 21
  | .LittleProximal => 22
  | .LittleIntermediate => 23
  | .LittleDistal => 24
  | .LittleTip => 25

/-- `NameToHandJoint` from src/constants.rs, 26 variants in source order. -/
inductive NameToHandJoint where
  | Palm
  | Wrist
  | ThumbMetacarpal
  | ThumbProximal
  | ThumbDistal
  | ThumbTip
  | IndexMetacarpal
  | IndexProximal
  | IndexIntermediate
  | IndexDistal
  | IndexTip
  | MiddleMetacarpal
  | MiddleProximal
  | MiddleIntermediate
  | MiddleDistal
  | MiddleTip
  | RingMetacarpal
  | RingProximal
  | RingIntermediate
  | RingDistal
  | RingTip
  | LittleMetacarpal
  | LittleProximal
  | LittleIntermediate
  | LittleDistal
  | LittleTip
deriving DecidableEq, Repr, Inhabited, Fintype

/-- The canonical ordinal of a `NameToHandJoint` (its position 0..25 in the
source enumeration). -/
def NameToHandJoint.nameIndex : NameToHandJoint → Nat
  | .Palm => 0
  | .Wrist => 1
  | .ThumbMetacarpal => 2
  | .ThumbProximal => 3
  | .ThumbDistal => 4
  | .ThumbTip => 5
  | .IndexMetacarpal => 6
  | .IndexProximal => 7
  | .IndexIntermediate => 8
  | .IndexDistal => 9
  | .IndexTip => 10
  | .MiddleMetacarpal => 11
  | .MiddleProximal => 12
  | .MiddleIntermediate => 13
  | .MiddleDistal => 14
  | .MiddleTip => 15
  | .RingMetacarpal => 16
  | .RingProximal => 17
  | .RingIntermediate => 18
  | .RingDistal => 19
  | .RingTip => 20
  | .LittleMetacarpal => 21
  | .LittleProximal => 22
  | .LittleIntermediate => 23
  | .LittleDistal => 24
  | .LittleTip => 25

/-- Inverse of `nameIndex` on 0..25 (claim-side helper used to talk about
"the joint at canonical index i"). -/
def NameToHandJoint.fromIndex : Nat → Option NameToHandJoint
  | 0 => some .Palm
  | 1 => some .Wrist
  | 2 => some .ThumbMetacarpal
  | 3 => some .ThumbProximal
  | 4 => some .ThumbDistal
  | 5 => some .ThumbTip
  | 6 => some .IndexMetacarpal
  | 7 => some .IndexProximal
  | 8 => some .IndexIntermediate
  | 9 => some .IndexDistal
  | 10 => some .IndexTip
  | 11 => some .MiddleMetacarpal
  | 12 => some .MiddleProximal
  | 13 => some .MiddleIntermediate
  | 14 => some .MiddleDistal
  | 15 => some .MiddleTip
  | 16 => some .RingMetacarpal
  | 17 => some .RingProximal
  | 18 => some .RingIntermediate
  | 19 => some .RingDistal
  | 20 => some .RingTip
  | 21 => some .LittleMetacarpal
  | 22 => some .LittleProximal
  | 23 => some .LittleIntermediate
  | 24 => some .LittleDistal
  | 25 => some .LittleTip
  | _ => none

/-- `get_default_right_hand` from src/constants.rs: the 26 calibrated right-hand
joints, in canonical order (the Rust `[HandJoint; 26]` array as a list). -/
def get_default_right_hand : List HandJoint := [
  { position := ⟨0.11578956, 1.0322298, -0.07940306⟩, position_valid := true, position_tracked := true, orientation := ⟨-0.16057923, -0.5977889, 0.76988935, -0.15534931⟩, orientation_valid := true, orientation_tracked := true, radius := 0.017204836 },
  { position := ⟨0.110605344, 0.96545035, -0.06913033⟩, position_valid := true, position_tracked := true, orientation := ⟨-0.16057923, -0.5977889, 0.76988935, -0.15534931⟩, orientation_valid := true, orientation_tracked := true, radius := 0.022538071 },
  { position := ⟨0.13841398, 1.0021406, -0.052384503⟩, position_valid := true, position_tracked := true, orientation := ⟨-0.73630154, -0.30601385, 0.56149095, -0.22123282⟩, orientation_valid := true, orientation_tracked := true, radius := 0.02035542 },
  { position := ⟨0.16202356, 1.0249985, -0.043111823⟩, position_valid := true, position_tracked := true, orientation := ⟨-0.6474834, -0.40439665, 0.59034175, -0.26215592⟩, orientation_valid := true, orientation_tracked := true, radius := 0.012899493 },
  { position := ⟨0.18162939, 1.0539914, -0.03723684⟩, position_valid := true, position_tracked := true, orientation := ⟨-0.75916475, -0.24931243, 0.58079475, -0.15553255⟩, orientation_valid := true, orientation_tracked := true, radius := 0.010259149 },
  { position := ⟨0.20314479, 1.066816, -0.030817013⟩, position_valid := true, position_tracked := true, orientation := ⟨-0.75916475, -0.24931243, 0.58079475, -0.15553255⟩, orientation_valid := true, orientation_tracked := true, radius := 0.009208953 },
  { position := ⟨0.12954025, 1.0039586, -0.061990373⟩, position_valid := true, position_tracked := true, orientation := ⟨-0.16057923, -0.5977889, 0.76988935, -0.15534931⟩, orientation_valid := true, orientation_tracked := true, radius := 0.022293832 },
  { position := ⟨0.13575831, 1.0662655, -0.0752951⟩, position_valid := true, position_tracked := true, orientation := ⟨-0.17234212, -0.60941154, 0.7517424, -0.18384671⟩, orientation_valid := true, orientation_tracked := true, radius := 0.010812029 },
  { position := ⟨0.13715388, 1.1052845, -0.08317496⟩, position_valid := true, position_tracked := true, orientation := ⟨-0.13962409, -0.6614135, 0.71495426, -0.17854437⟩, orientation_valid := true, orientation_tracked := true, radius := 0.00896667 },
  { position := ⟨0.13622141, 1.1306962, -0.0853719⟩, position_valid := true, position_tracked := true, orientation := ⟨-0.11572188, -0.6341916, 0.7430719, -0.179595⟩, orientation_valid := true, orientation_tracked := true, radius := 0.008019494 },
  { position := ⟨0.13507375, 1.1536294, -0.09043077⟩, position_valid := true, position_tracked := true, orientation := ⟨-0.11572188, -0.6341916, 0.7430719, -0.179595⟩, orientation_valid := true, orientation_tracked := true, radius := 0.006969299 },
  { position := ⟨0.11431386, 1.0008209, -0.06930854⟩, position_valid := true, position_tracked := true, orientation := ⟨-0.16057923, -0.5977889, 0.76988935, -0.15534931⟩, orientation_valid := true, orientation_tracked := true, radius := 0.022297699 },
  { position := ⟨0.11726526, 1.0636387, -0.08949757⟩, position_valid := true, position_tracked := true, orientation := ⟨-0.10877958, -0.6516118, 0.7275088, -0.18520312⟩, orientation_valid := true, orientation_tracked := true, radius := 0.011734813 },
  { position := ⟨0.11351965, 1.1081975, -0.09522918⟩, position_valid := true, position_tracked := true, orientation := ⟨-0.09748417, -0.65516704, 0.7271557, -0.18027195⟩, orientation_valid := true, orientation_tracked := true, radius := 0.008434071 },
  { position := ⟨0.11078716, 1.1367817, -0.09877359⟩, position_valid := true, position_tracked := true, orientation := ⟨-0.07898912, -0.6207319, 0.7657275, -0.14870927⟩, orientation_valid := true, orientation_tracked := true, radius := 0.008012368 },
  { position := ⟨0.109201774, 1.1620579, -0.10566684⟩, position_valid := true, position_tracked := true, orientation := ⟨-0.07898912, -0.6207319, 0.7657275, -0.14870927⟩, orientation_valid := true, orientation_tracked := true, radius := 0.006962173 },
  { position := ⟨0.0959552, 1.0016428, -0.07898356⟩, position_valid := true, position_tracked := true, orientation := ⟨-0.16057923, -0.5977889, 0.76988935, -0.15534931⟩, orientation_valid := true, orientation_tracked := true, radius := 0.02004641 },
  { position := ⟨0.0968687, 1.056594, -0.09287319⟩, position_valid := true, position_tracked := true, orientation := ⟨-0.061285853, -0.6445517, 0.7438205, -0.16591744⟩, orientation_valid := true, orientation_tracked := true, radius := 0.010420178 },
  { position := ⟨0.09184316, 1.0966957, -0.09949106⟩, position_valid := true, position_tracked := true, orientation := ⟨-0.035476506, -0.65508807, 0.74103206, -0.14308292⟩, orientation_valid := true, orientation_tracked := true, radius := 0.007993739 },
  { position := ⟨0.088078886, 1.1240736, -0.103375815⟩, position_valid := true, position_tracked := true, orientation := ⟨-0.05044055, -0.6750347, 0.7261634, -0.12029514⟩, orientation_valid := true, orientation_tracked := true, radius := 0.0075940522 },
  { position := ⟨0.08594976, 1.1492996, -0.10720982⟩, position_valid := true, position_tracked := true, orientation := ⟨-0.05044055, -0.6750347, 0.7261634, -0.12029514⟩, orientation_valid := true, orientation_tracked := true, radius := 0.006543857 },
  { position := ⟨0.08679972, 1.0013778, -0.07933965⟩, position_valid := true, position_tracked := true, orientation := ⟨0.079209626, -0.6042261, 0.78903735, -0.07782571⟩, orientation_valid := true, orientation_tracked := true, radius := 0.018996214 },
  { position := ⟨0.076300375, 1.0465008, -0.091672905⟩, position_valid := true, position_tracked := true, orientation := ⟨0.0013647676, -0.611447, 0.7800056, -0.13312519⟩, orientation_valid := true, orientation_tracked := true, radius := 0.008909174 },
  { position := ⟨0.07097942, 1.0772631, -0.09981148⟩, position_valid := true, position_tracked := true, orientation := ⟨0.06511599, -0.6392353, 0.7561073, -0.12425861⟩, orientation_valid := true, orientation_tracked := true, radius := 0.007103722 },
  { position := ⟨0.065490335, 1.0975376, -0.103528954⟩, position_valid := true, position_tracked := true, orientation := ⟨0.029709637, -0.6588042, 0.746072, -0.09203919⟩, orientation_valid := true, orientation_tracked := true, radius := 0.006748536 },
  { position := ⟨0.062057115, 1.1199425, -0.1077688⟩, position_valid := true, position_tracked := true, orientation := ⟨0.029709637, -0.6588042, 0.746072, -0.09203919⟩, orientation_valid := true, orientation_tracked := true, radius := 0.005698341 }
]

/-- `get_default_left_hand` from src/constants.rs: the 26 calibrated left-hand
joints, in canonical order. -/
def get_default_left_hand : List HandJoint := [
  { position := ⟨-0.09199685, 1.0404115, -0.13863136⟩, position_valid := true, position_tracked := true, orientation := ⟨-0.06417896, -0.61519694, 0.7855916, -0.016115963⟩, orientation_valid := true, orientation_tracked := true, radius := 0.017204836 },
  { position := ⟨-0.09377934, 0.9734013, -0.12705012⟩, position_valid := true, position_tracked := true, orientation := ⟨-0.06417896, -0.61519694, 0.7855916, -0.016115963⟩, orientation_valid := true, orientation_tracked := true, radius := 0.022538071 },
  { position := ⟨-0.12551022, 1.0117472, -0.12637892⟩, position_valid := true, position_tracked := true, orientation := ⟨0.60534817, -0.3809054, 0.6843805, 0.14173296⟩, orientation_valid := true, orientation_tracked := true, radius := 0.02035542 },
  { position := ⟨-0.15011515, 1.0354085, -0.12559117⟩, position_valid := true, position_tracked := true, orientation := ⟨0.515786, -0.46232754, 0.70620716, 0.14659452⟩, orientation_valid := true, orientation_tracked := true, radius := 0.012899493 },
  { position := ⟨-0.17115869, 1.0639497, -0.12702624⟩, position_valid := true, position_tracked := true, orientation := ⟨0.62170273, -0.29466128, 0.7214654, 0.078412086⟩, orientation_valid := true, orientation_tracked := true, radius := 0.010259149 },
  { position := ⟨-0.19349839, 1.0767481, -0.12942076⟩, position_valid := true, position_tracked := true, orientation := ⟨0.62170273, -0.29466128, 0.7214654, 0.078412086⟩, orientation_valid := true, orientation_tracked := true, radius := 0.009208953 },
  { position := ⟨-0.11307493, 1.0127434, -0.130564⟩, position_valid := true, position_tracked := true, orientation := ⟨-0.06417896, -0.61519694, 0.7855916, -0.016115963⟩, orientation_valid := true, orientation_tracked := true, radius := 0.022293832 },
  { position := ⟨-0.11093007, 1.0742465, -0.14629754⟩, position_valid := true, position_tracked := true, orientation := ⟨-0.0071815774, -0.7033858, 0.7104458, -0.021536648⟩, orientation_valid := true, orientation_tracked := true, radius := 0.010812029 },
  { position := ⟨-0.1117304, 1.1140674, -0.14671154⟩, position_valid := true, position_tracked := true, orientation := ⟨-0.027792111, -0.7521504, 0.6573756, -0.036809683⟩, orientation_valid := true, orientation_tracked := true, radius := 0.00896667 },
  { position := ⟨-0.11221108, 1.1393596, -0.1433168⟩, position_valid := true, position_tracked := true, orientation := ⟨-0.057377614, -0.7506119, 0.6576552, -0.02791658⟩, orientation_valid := true, orientation_tracked := true, radius := 0.008019494 },
  { position := ⟨-0.110982716, 1.1627451, -0.14120623⟩, position_valid := true, position_tracked := true, orientation := ⟨-0.057377614, -0.7506119, 0.6576552, -0.02791658⟩, orientation_valid := true, orientation_tracked := true, radius := 0.006969299 },
  { position := ⟨-0.09627621, 1.0093775, -0.12898207⟩, position_valid := true, position_tracked := true, orientation := ⟨-0.06417896, -0.61519694, 0.7855916, -0.016115963⟩, orientation_valid := true, orientation_tracked := true, radius := 0.022297699 },
  { position := ⟨-0.08771748, 1.0714455, -0.14828065⟩, position_valid := true, position_tracked := true, orientation := ⟨-0.13512488, -0.70895374, 0.6920408, 0.014331311⟩, orientation_valid := true, orientation_tracked := true, radius := 0.011734813 },
  { position := ⟨-0.07837005, 1.1155072, -0.14639857⟩, position_valid := true, position_tracked := true, orientation := ⟨-0.14643663, -0.7356529, 0.6613316, 0.0034517646⟩, orientation_valid := true, orientation_tracked := true, radius := 0.008434071 },
  { position := ⟨-0.072619304, 1.1436299, -0.14277457⟩, position_valid := true, position_tracked := true, orientation := ⟨-0.17750135, -0.71161807, 0.67951804, -0.018677175⟩, orientation_valid := true, orientation_tracked := true, radius := 0.008012368 },
  { position := ⟨-0.06635609, 1.169102, -0.14184727⟩, position_valid := true, position_tracked := true, orientation := ⟨-0.17750135, -0.71161807, 0.67951804, -0.018677175⟩, orientation_valid := true, orientation_tracked := true, radius := 0.006962173 },
  { position := ⟨-0.075872704, 1.0094653, -0.12763283⟩, position_valid := true, position_tracked := true, orientation := ⟨-0.06417896, -0.61519694, 0.7855916, -0.016115963⟩, orientation_valid := true, orientation_tracked := true, radius := 0.02004641 },
  { position := ⟨-0.068767615, 1.0643067, -0.14009632⟩, position_valid := true, position_tracked := true, orientation := ⟨-0.2054858, -0.687606, 0.6962721, 0.013380319⟩, orientation_valid := true, orientation_tracked := true, radius := 0.010420178 },
  { position := ⟨-0.05629527, 1.1032953, -0.13886558⟩, position_valid := true, position_tracked := true, orientation := ⟨-0.23049791, -0.71999407, 0.6541984, -0.02244778⟩, orientation_valid := true, orientation_tracked := true, radius := 0.007993739 },
  { position := ⟨-0.048781022, 1.1298739, -0.13487369⟩, position_valid := true, position_tracked := true, orientation := ⟨-0.21470001, -0.7524259, 0.6196937, -0.06114711⟩, orientation_valid := true, orientation_tracked := true, radius := 0.0075940522 },
  { position := ⟨-0.043416284, 1.1545377, -0.13057244⟩, position_valid := true, position_tracked := true, orientation := ⟨-0.21470001, -0.7524259, 0.6196937, -0.06114711⟩, orientation_valid := true, orientation_tracked := true, radius := 0.006543857 },
  { position := ⟨-0.06797077, 1.0091673, -0.12299706⟩, position_valid := true, position_tracked := true, orientation := ⟨-0.29945284, -0.59889627, 0.7368763, -0.09308344⟩, orientation_valid := true, orientation_tracked := true, radius := 0.018996214 },
  { position := ⟨-0.052160684, 1.0541556, -0.12795⟩, position_valid := true, position_tracked := true, orientation := ⟨-0.31879357, -0.67544085, 0.6648357, 0.012003437⟩, orientation_valid := true, orientation_tracked := true, radius := 0.008909174 },
  { position := ⟨-0.037961796, 1.0828841, -0.12421726⟩, position_valid := true, position_tracked := true, orientation := ⟨-0.37481803, -0.7022579, 0.6051459, -0.011998042⟩, orientation_valid := true, orientation_tracked := true, radius := 0.007103722 },
  { position := ⟨-0.02864471, 1.1012058, -0.11851531⟩, position_valid := true, position_tracked := true, orientation := ⟨-0.34324473, -0.7252302, 0.59369886, -0.06120594⟩, orientation_valid := true, orientation_tracked := true, radius := 0.006748536 },
  { position := ⟨-0.02077254, 1.1221849, -0.11306969⟩, position_valid := true, position_tracked := true, orientation := ⟨-0.34324473, -0.7252302, 0.59369886, -0.06120594⟩, orientation_valid := true, orientation_tracked := true, radius := 0.005698341 }
]

/-- `NameToHandJoint::get_right_hand_joint_data`: the hard-coded per-name
right-hand literals (duplicated encoding, transcribed from its own match arms). -/
def NameToHandJoint.get_right_hand_joint_data : NameToHandJoint → HandJoint
  | .Palm => { position := ⟨0.11578956, 1.0322298, -0.07940306⟩, position_valid := true, position_tracked := true, orientation := ⟨-0.16057923, -0.5977889, 0.76988935, -0.15534931⟩, orientation_valid := true, orientation_tracked := true, radius := 0.017204836 }
  | .Wrist => { position := ⟨0.110605344, 0.96545035, -0.06913033⟩, position_valid := true, position_tracked := true, orientation := ⟨-0.16057923, -0.5977889, 0.76988935, -0.15534931⟩, orientation_valid := true, orientation_tracked := true, radius := 0.022538071 }
  | .ThumbMetacarpal => { position := ⟨0.13841398, 1.0021406, -0.052384503⟩, position_valid := true, position_tracked := true, orientation := ⟨-0.73630154, -0.30601385, 0.56149095, -0.22123282⟩, orientation_valid := true, orientation_tracked := true, radius := 0.02035542 }
  | .ThumbProximal => { position := ⟨0.16202356, 1.0249985, -0.043111823⟩, position_valid := true, position_tracked := true, orientation := ⟨-0.6474834, -0.40439665, 0.59034175, -0.26215592⟩, orientation_valid := true, orientation_tracked := true, radius := 0.012899493 }
  | .ThumbDistal => { position := ⟨0.18162939, 1.0539914, -0.03723684⟩, position_valid := true, position_tracked := true, orientation := ⟨-0.75916475, -0.24931243, 0.58079475, -0.15553255⟩, orientation_valid := true, orientation_tracked := true, radius := 0.010259149 }
  | .ThumbTip => { position := ⟨0.20314479, 1.066816, -0.030817013⟩, position_valid := true, position_tracked := true, orientation := ⟨-0.75916475, -0.24931243, 0.58079475, -0.15553255⟩, orientation_valid := true, orientation_tracked := true, radius := 0.009208953 }
  | .IndexMetacarpal => { position := ⟨0.12954025, 1.0039586, -0.061990373⟩, position_valid := true, position_tracked := true, orientation := ⟨-0.16057923, -0.5977889, 0.76988935, -0.15534931⟩, orientation_valid := true, orientation_tracked := true, radius := 0.022293832 }
  | .IndexProximal => { position := ⟨0.13575831, 1.0662655, -0.0752951⟩, position_valid := true, position_tracked := true, orientation := ⟨-0.17234212, -0.60941154, 0.7517424, -0.18384671⟩, orientation_valid := true, orientation_tracked := true, radius := 0.010812029 }
  | .IndexIntermediate => { position := ⟨0.13715388, 1.1052845, -0.08317496⟩, position_valid := true, position_tracked := true, orientation := ⟨-0.13962409, -0.6614135, 0.71495426, -0.17854437⟩, orientation_valid := true, orientation_tracked := true, radius := 0.00896667 }
  | .IndexDistal => { position := ⟨0.13622141, 1.1306962, -0.0853719⟩, position_valid := true, position_tracked := true, orientation := ⟨-0.11572188, -0.6341916, 0.7430719, -0.179595⟩, orientation_valid := true, orientation_tracked := true, radius := 0.008019494 }
  | .IndexTip => { position := ⟨0.13507375, 1.1536294, -0.09043077⟩, position_valid := true, position_tracked := true, orientation := ⟨-0.11572188, -0.6341916, 0.7430719, -0.179595⟩, orientation_valid := true, orientation_tracked := true, radius := 0.006969299 }
  | .MiddleMetacarpal => { position := ⟨0.11431386, 1.0008209, -0.06930854⟩, position_valid := true, position_tracked := true, orientation := ⟨-0.16057923, -0.5977889, 0.76988935, -0.15534931⟩, orientation_valid := true, orientation_tracked := true, radius := 0.022297699 }
  | .MiddleProximal => { position := ⟨0.11726526, 1.0636387, -0.08949757⟩, position_valid := true, position_tracked := true, orientation := ⟨-0.10877958, -0.6516118, 0.7275088, -0.18520312⟩, orientation_valid := true, orientation_tracked := true, radius := 0.011734813 }
  | .MiddleIntermediate => { position := ⟨0.11351965, 1.1081975, -0.09522918⟩, position_valid := true, position_tracked := true, orientation := ⟨-0.09748417, -0.65516704, 0.7271557, -0.18027195⟩, orientation_valid := true, orientation_tracked := true, radius := 0.008434071 }
  | .MiddleDistal => { position := ⟨0.11078716, 1.1367817, -0.09877359⟩, position_valid := true, position_tracked := true, orientation := ⟨-0.07898912, -0.6207319, 0.7657275, -0.14870927⟩, orientation_valid := true, orientation_tracked := true, radius := 0.008012368 }
  | .MiddleTip => { position := ⟨0.109201774, 1.1620579, -0.10566684⟩, position_valid := true, position_tracked := true, orientation := ⟨-0.07898912, -0.6207319, 0.7657275, -0.14870927⟩, orientation_valid := true, orientation_tracked := true, radius := 0.006962173 }
  | .RingMetacarpal => { position := ⟨0.0959552, 1.0016428, -0.07898356⟩, position_valid := true, position_tracked := true, orientation := ⟨-0.16057923, -0.5977889, 0.76988935, -0.15534931⟩, orientation_valid := true, orientation_tracked := true, radius := 0.02004641 }
  | .RingProximal => { position := ⟨0.0968687, 1.056594, -0.09287319⟩, position_valid := true, position_tracked := true, orientation := ⟨-0.061285853, -0.6445517, 0.7438205, -0.16591744⟩, orientation_valid := true, orientation_tracked := true, radius := 0.010420178 }
  | .RingIntermediate => { position := ⟨0.09184316, 1.0966957, -0.09949106⟩, position_valid := true, position_tracked := true, orientation := ⟨-0.035476506, -0.65508807, 0.74103206, -0.14308292⟩, orientation_valid := true, orientation_tracked := true, radius := 0.007993739 }
  | .RingDistal => { position := ⟨0.088078886, 1.1240736, -0.103375815⟩, position_valid := true, position_tracked := true, orientation := ⟨-0.05044055, -0.6750347, 0.7261634, -0.12029514⟩, orientation_valid := true, orientation_tracked := true, radius := 0.0075940522 }
  | .RingTip => { position := ⟨0.08594976, 1.1492996, -0.10720982⟩, position_valid := true, position_tracked := true, orientation := ⟨-0.05044055, -0.6750347, 0.7261634, -0.12029514⟩, orientation_valid := true, orientation_tracked := true, radius := 0.006543857 }
  | .LittleMetacarpal => { position := ⟨0.08679972, 1.0013778, -0.07933965⟩, position_valid := true, position_tracked := true, orientation := ⟨0.079209626, -0.6042261, 0.78903735, -0.07782571⟩, orientation_valid := true, orientation_tracked := true, radius := 0.018996214 }
  | .LittleProximal => { position := ⟨0.076300375, 1.0465008, -0.091672905⟩, position_valid := true, position_tracked := true, orientation := ⟨0.0013647676, -0.611447, 0.7800056, -0.13312519⟩, orientation_valid := true, orientation_tracked := true, radius := 0.008909174 }
  | .LittleIntermediate => { position := ⟨0.07097942, 1.0772631, -0.09981148⟩, position_valid := true, position_tracked := true, orientation := ⟨0.06511599, -0.6392353, 0.7561073, -0.12425861⟩, orientation_valid := true, orientation_tracked := true, radius := 0.007103722 }
  | .LittleDistal => { position := ⟨0.065490335, 1.0975376, -0.103528954⟩, position_valid := true, position_tracked := true, orientation := ⟨0.029709637, -0.6588042, 0.746072, -0.09203919⟩, orientation_valid := true, orientation_tracked := true, radius := 0.006748536 }
  | .LittleTip => { position := ⟨0.062057115, 1.1199425, -0.1077688⟩, position_valid := true, position_tracked := true, orientation := ⟨0.029709637, -0.6588042, 0.746072, -0.09203919⟩, orientation_valid := true, orientation_tracked := true, radius := 0.005698341 }

/-- `NameToHandJoint::get_left_hand_joint_data`: indexes `get_default_left_hand`
by the arm-specific literal index, as in the source. -/
def NameToHandJoint.get_left_hand_joint_data (n : NameToHandJoint) : HandJoint :=
  let hand_joints := get_default_left_hand
  match n with
  | .Palm => hand_joints.getD 0 default
  | .Wrist => hand_joints.getD 1 default
  | .ThumbMetacarpal => hand_joints.getD 2 default
  | .ThumbProximal => hand_joints.getD 3 default
  | .ThumbDistal => hand_joints.getD 4 default
  | .ThumbTip => hand_joints.getD 5 default
  | .IndexMetacarpal => hand_joints.getD 6 default
  | .IndexProximal => hand_joints.getD 7 default
  | .IndexIntermediate => hand_joints.getD 8 default
  | .IndexDistal => hand_joints.getD 9 default
  | .IndexTip => hand_joints.getD 10 default
  | .MiddleMetacarpal => hand_joints.getD 11 default
  | .MiddleProximal => hand_joints.getD 12 default
  | .MiddleIntermediate => hand_joints.getD 13 default
  | .MiddleDistal => hand_joints.getD 14 default
  | .MiddleTip => hand_joints.getD 15 default
  | .RingMetacarpal => hand_joints.getD 16 default
  | .RingProximal => hand_joints.getD 17 default
  | .RingIntermediate => hand_joints.getD 18 default
  | .RingDistal => hand_joints.getD 19 default
  | .RingTip => hand_joints.getD 20 default
  | .LittleMetacarpal => hand_joints.getD 21 default
  | .LittleProximal => hand_joints.getD 22 default
  | .LittleIntermediate => hand_joints.getD 23 default
  | .LittleDistal => hand_joints.getD 24 default
  | .LittleTip => hand_joints.getD 25 default

/-- `NameToHandJoint::get_joint_data`. -/
def NameToHandJoint.get_joint_data (n : NameToHandJoint) (hand : Hand) : HandJoint :=
  if hand = Hand.Left then n.get_left_hand_joint_data else n.get_right_hand_joint_data

/-- `NameToHandJoint::get_physics_bone_from_index`; `none` models the
`panic!(\x22Index out of bounds\x22)` wildcard arm. -/
def get_physics_bone_from_index : Nat → Option PhysicsHandBone
  | 0 => some .Palm
  | 1 => some .Wrist
  | 2 => some .ThumbMetacarpal
  | 3 => some .ThumbProximal
  | 4 => some .ThumbDistal
  | 5 => some .ThumbTip
  | 6 => some .IndexMetacarpal
  | 7 => some .IndexProximal
  | 8 => some .IndexIntermediate
  | 9 => some .IndexDistal
  | 10 => some .IndexTip
  | 11 => some .MiddleMetacarpal
  | 12 => some .MiddleProximal
  | 13 => some .MiddleIntermediate
  | 14 => some .MiddleDistal
  | 15 => some .MiddleTip
  | 16 => some .RingMetacarpal
  | 17 => some .RingProximal
  | 18 => some .RingIntermediate
  | 19 => some .RingDistal
  | 20 => some .RingTip
  | 21 => some .LittleMetacarpal
  | 22 => some .LittleProximal
  | 23 => some .LittleIntermediate
  | 24 => some .LittleDistal
  | 25 => some .LittleTip
  | _ => none

/-- Claim-side helper: the joint data at canonical index `i` for a hand. -/
def joint_at (hand : Hand) (i : Nat) : HandJoint :=
  ((NameToHandJoint.fromIndex i).getD .Palm).get_joint_data hand

/-- `get_start_and_end_joints` from src/constants.rs: the bone-topology map,
arm for arm.  Bones with no physical extent return `none`; bone `n` returns the
joint data of names `n` and `n+1`. -/
def get_start_and_end_joints (bone : PhysicsHandBone) (hand : Hand) :
    Option (HandJoint × HandJoint) :=
  match bone with
  | .Palm => none
  | .Wrist => none
  | .ThumbMetacarpal => some ((NameToHandJoint.ThumbMetacarpal).get_joint_data hand, (NameToHandJoint.ThumbProximal).get_joint_data hand)
  | .ThumbProximal => some ((NameToHandJoint.ThumbProximal).get_joint_data hand, (NameToHandJoint.ThumbDistal).get_joint_data hand)
  | .ThumbDistal => some ((NameToHandJoint.ThumbDistal).get_joint_data hand, (NameToHandJoint.ThumbTip).get_joint_data hand)
  | .ThumbTip => none
  | .IndexMetacarpal => some ((NameToHandJoint.IndexMetacarpal).get_joint_data hand, (NameToHandJoint.IndexProximal).get_joint_data hand)
  | .IndexProximal => some ((NameToHandJoint.IndexProximal).get_joint_data hand, (NameToHandJoint.IndexIntermediate).get_joint_data hand)
  | .IndexIntermediate => some ((NameToHandJoint.IndexIntermediate).get_joint_data hand, (NameToHandJoint.IndexDistal).get_joint_data hand)
  | .IndexDistal => some ((NameToHandJoint.IndexDistal).get_joint_data hand, (NameToHandJoint.IndexTip).get_joint_data hand)
  | .IndexTip => none
  | .MiddleMetacarpal => some ((NameToHandJoint.MiddleMetacarpal).get_joint_data hand, (NameToHandJoint.MiddleProximal).get_joint_data hand)
  | .MiddleProximal => some ((NameToHandJoint.MiddleProximal).get_joint_data hand, (NameToHandJoint.MiddleIntermediate).get_joint_data hand)
  | .MiddleIntermediate => some ((NameToHandJoint.MiddleIntermediate).get_joint_data hand, (NameToHandJoint.MiddleDistal).get_joint_data hand)
  | .MiddleDistal => some ((NameToHandJoint.MiddleDistal).get_joint_data hand, (NameToHandJoint.MiddleTip).get_joint_data hand)
  | .MiddleTip => none
  | .RingMetacarpal => some ((NameToHandJoint.RingMetacarpal).get_joint_data hand, (NameToHandJoint.RingProximal).get_joint_data hand)
  | .RingProximal => some ((NameToHandJoint.RingProximal).get_joint_data hand, (NameToHandJoint.RingIntermediate).get_joint_data hand)
  | .RingIntermediate => some ((NameToHandJoint.RingIntermediate).get_joint_data hand, (NameToHandJoint.RingDistal).get_joint_data hand)
  | .RingDistal => some ((NameToHandJoint.RingDistal).get_joint_data hand, (NameToHandJoint.RingTip).get_joint_data hand)
  | .RingTip => none
  | .LittleMetacarpal => some ((NameToHandJoint.LittleMetacarpal).get_joint_data hand, (NameToHandJoint.LittleProximal).get_joint_data hand)
  | .LittleProximal => some ((NameToHandJoint.LittleProximal).get_joint_data hand, (NameToHandJoint.LittleIntermediate).get_joint_data hand)
  | .LittleIntermediate => some ((NameToHandJoint.LittleIntermediate).get_joint_data hand, (NameToHandJoint.LittleDistal).get_joint_data hand)
  | .LittleDistal => some ((NameToHandJoint.LittleDistal).get_joint_data hand, (NameToHandJoint.LittleTip).get_joint_data hand)
  | .LittleTip => none

/-- External dependency `bevy_oxr::xr_input::hands::HandBone` (not part of this
repository).  Modelled from the spec: 26 bone variants in the same canonical
order, with `get_all_bones` returning all 26 and `get_index_from_bone` giving
the canonical index 0..25. -/
inductive HandBone where
  | Palm
  | Wrist
  | ThumbMetacarpal
  | ThumbProximal
  | ThumbDistal
  | ThumbTip
  | IndexMetacarpal
  | IndexProximal
  | IndexIntermediate
  | IndexDistal
  | IndexTip
  | MiddleMetacarpal
  | MiddleProximal
  | MiddleIntermediate
  | MiddleDistal
  | MiddleTip
  | RingMetacarpal
  | RingProximal
  | RingIntermediate
  | RingDistal
  | RingTip
  | LittleMetacarpal
  | LittleProximal
  | LittleIntermediate
  | LittleDistal
  | LittleTip
deriving DecidableEq, Repr, Inhabited, Fintype

/-- `HandBone::get_index_from_bone` (external bevy_oxr; canonical index). -/
def HandBone.get_index_from_bone : HandBone → Nat
  | .Palm => 0
  | .Wrist => 1
  | .ThumbMetacarpal => 2
  | .ThumbProximal => 3
  | .ThumbDistal => 4
  | .ThumbTip => 5
  | .IndexMetacarpal => 6
  | .IndexProximal => 7
  | .IndexIntermediate => 8
  | .IndexDistal => 9
  | .IndexTip => 10
  | .MiddleMetacarpal => 11
  | .MiddleProximal => 12
  | .MiddleIntermediate => 13
  | .MiddleDistal => 14
  | .MiddleTip => 15
  | .RingMetacarpal => 16
  | .RingProximal => 17
  | .RingIntermediate => 18
  | .RingDistal => 19
  | .RingTip => 20
  | .LittleMetacarpal => 21
  | .LittleProximal => 22
  | .LittleIntermediate => 23
  | .LittleDistal => 24
  | .LittleTip => 25

/-- `HandBone::get_all_bones` (external bevy_oxr): every bone, in canonical order. -/
def HandBone.get_all_bones : List HandBone :=
  [.Palm, .Wrist, .ThumbMetacarpal, .ThumbProximal, .ThumbDistal, .ThumbTip, .IndexMetacarpal, .IndexProximal, .IndexIntermediate, .IndexDistal, .IndexTip, .MiddleMetacarpal, .MiddleProximal, .MiddleIntermediate, .MiddleDistal, .MiddleTip, .RingMetacarpal, .RingProximal, .RingIntermediate, .RingDistal, .RingTip, .LittleMetacarpal, .LittleProximal, .LittleIntermediate, .LittleDistal, .LittleTip]

/-- The record of one tracked entity spawned by `spawn_hand_entities`: the
components attached by `commands.spawn` that the claims mention (mesh radius,
transform, bone and hand tags, `HandBoneRadius`). -/
structure TrackedEntity where
  hand : Hand
  bone : HandBone
  meshRadius : ℚ
  translation : Vec3
  rotation : Quat
  handBoneRadius : ℚ
deriving DecidableEq, Repr, Inhabited

/-- `spawn_hand_entities` from src/constants.rs, as the list of tracked entities
it spawns: for each hand and each `HandBone`, it resolves the bone's joint span
and `continue`s (spawns nothing) when the span is `none`; otherwise it spawns
one entity with mesh radius `joint_one.radius`, translation `direction`
(`joint_two.position - joint_one.position`), rotation `joint_one.orientation`,
and `HandBoneRadius(0.1)`. -/
def spawn_hand_entities : List TrackedEntity :=
  [Hand.Left, Hand.Right].flatMap fun hand =>
    HandBone.get_all_bones.filterMap fun bone =>
      let physics_bone := (get_physics_bone_from_index bone.get_index_from_bone).getD .Palm
      match get_start_and_end_joints physics_bone hand with
      | none => none
      | some (joint_one, joint_two) =>
          some { hand := hand
                 bone := bone
                 meshRadius := joint_one.radius
                 translation := Vec3.sub joint_two.position joint_one.position
                 rotation := joint_one.orientation
                 handBoneRadius := 0.1 }

/-- Rapier `Group::GROUP_1` as a u32 bitmask. -/
def GROUP_1 : Nat := 1

/-- Rapier `Group::GROUP_2` as a u32 bitmask. -/
def GROUP_2 : Nat := 2

/-- Rapier `Group::GROUP_3` as a u32 bitmask. -/
def GROUP_3 : Nat := 4

/-- Rapier `Group::ALL` (all 32 bits set). -/
def GROUP_ALL : Nat := 4294967295

/-- bitflags `Group::remove`: `self.bits &= !other.bits` within u32. -/
def groupRemove (a b : Nat) : Nat := a &&& (GROUP_ALL ^^^ b)

/-- Rapier `CollisionGroups` (membership bits, filter bits). -/
structure CollisionGroups where
  memberships : Nat
  filters : Nat
deriving DecidableEq, Repr, Inhabited

/-- Rapier's interaction-groups pair test: a pair collides iff each body's
memberships intersect the other's filter. -/
def collisionAllowed (a b : CollisionGroups) : Bool :=
  (a.memberships &&& b.filters != 0) && (b.memberships &&& a.filters != 0)

/-- Rapier rigid-body kinds. -/
inductive RigidBodyKind where
  | Dynamic
  | Fixed
  | KinematicPositionBased
  | KinematicVelocityBased
deriving DecidableEq, Repr, Inhabited, Fintype

/-- A capsule collider, as built by `Collider::capsule(a, b, radius)`: the two
local segment endpoints and the radius. -/
structure Capsule where
  a : Vec3
  b : Vec3
  radius : ℚ
deriving DecidableEq, Repr, Inhabited

/-- The record of one physics body spawned by `spawn_physics_hands`: the
components attached by `commands.spawn` that the claims mention. -/
structure SpawnedPhysicsBody where
  hand : Hand
  translation : Vec3
  rotation : Quat
  collider : Capsule
  bodyKind : RigidBodyKind
  linvel : Vec3
  angvel : Vec3
  groups : CollisionGroups
  boneTag : PhysicsHandBone
deriving DecidableEq, Repr, Inhabited

/-- The per-hand membership group chosen by `spawn_physics_hands`
(`GROUP_1` for Left, `GROUP_2` for Right). -/
def hand_membership : Hand → Nat
  | .Left => GROUP_1
  | .Right => GROUP_2

/-- The interaction filter built by `spawn_physics_hands`: start from
`Group::ALL`, `remove(hand_membership)`, then `remove(floor_membership)`
(`GROUP_3`). -/
def hand_filter (hand : Hand) : Nat :=
  groupRemove (groupRemove GROUP_ALL (hand_membership hand)) GROUP_3

/-- The calibration table used by `spawn_physics_hands` for a hand. -/
def default_hand_joints : Hand → List HandJoint
  | .Left => get_default_left_hand
  | .Right => get_default_right_hand

/-- `spawn_physics_hands` from src/constants.rs, as the list of bodies it
spawns: for each hand (Left then Right) and each of that hand's 26 calibration
joints, one body at the joint's pose with a capsule collider from
`(0, -0.0575, 0)` to `(0, 0.0575, 0)` of radius `joint.radius / 2`,
`RigidBody::Fixed`, `Velocity::default()`, collision groups
`(hand_membership, hand_filter)` and bone tag `PhysicsHandBone::Palm`. -/
def spawn_physics_hands : List SpawnedPhysicsBody :=
  [Hand.Left, Hand.Right].flatMap fun hand =>
    (default_hand_joints hand).map fun joint =>
      { hand := hand
        translation := joint.position
        rotation := joint.orientation
        collider := { a := ⟨0, -0.0575, 0⟩, b := ⟨0, 0.0575, 0⟩, radius := joint.radius / 2 }
        bodyKind := .Fixed
        linvel := Vec3.zero
        angvel := Vec3.zero
        groups := { memberships := hand_membership hand, filters := hand_filter hand }
        boneTag := .Palm }

/-- One tick's tracked input for one body, after entity resolution: the start
and end tracked translations and the measured direction length.  `dirLen`
stands for `length(endT - startT)` (irrational in general, hence carried as a
parameter; `TrackedPair.wf` states the constraint). -/
structure TrackedPair where
  startT : Vec3
  endT : Vec3
  dirLen : ℚ
deriving DecidableEq, Repr, Inhabited

/-- Well-formedness of a tracked input: `dirLen` really is the euclidean length
of the measured direction. -/
def TrackedPair.wf (tr : TrackedPair) : Prop :=
  tr.dirLen * tr.dirLen = Vec3.lengthSq (Vec3.sub tr.endT tr.startT) ∧ 0 ≤ tr.dirLen

/-- The mutable per-body state touched by `update_physics_hands`: the query
components `(&mut Transform, &mut Collider, &PhysicsHandBone,
&mut BoneInitState, &Hand, &mut Velocity)`.  `initState = true` models
`BoneInitState::True` (initialized). -/
structure BodyState where
  transform : Transform
  collider : Capsule
  bone : PhysicsHandBone
  initState : Bool
  hand : Hand
  linvel : Vec3
  angvel : Vec3
deriving DecidableEq, Repr, Inhabited

/-- The body of `update_physics_hands` past its guards, for one body and one
tick (the `match *bone.3` branch, with `matching = VelocityMatching` as
hard-coded in the source):
* initialized: `linvel := (start.translation - body.translation) / dt` and
  `angvel := cross(body.forward, desired_forward) / dt`, where
  `desired_forward = looking_at(end, +Y).rotation.mul_vec3(-Z)`, i.e. the
  normalized direction `(1 / dirLen) • (endT - startT)`;
* uninitialized: replace the collider by
  `Collider::capsule(0, (0, 0, -length(direction)), 0.010)` and set the init
  state, leaving transform and velocity alone. -/
def stepCore (dt : ℚ) (b : BodyState) (tr : TrackedPair) : BodyState :=
  match b.initState with
  | true =>
      let diff := Vec3.divScalar (Vec3.sub tr.startT b.transform.translation) dt
      let desired_forward := Vec3.smul (1 / tr.dirLen) (Vec3.sub tr.endT tr.startT)
      let cross := Vec3.cross b.transform.forward desired_forward
      { b with linvel := diff, angvel := Vec3.divScalar cross dt }
  | false =>
      { b with collider := { a := Vec3.zero, b := ⟨0, 0, -tr.dirLen⟩, radius := 0.010 }
               initState := true }

/-- The net effect of one `update_physics_hands` tick on a single body:
Left-hand bodies are skipped (`continue`), unresolved bone spans are skipped
(the `if let Some` falls through), and a direction length below `0.001` leaves
the body untouched.  (Across several bodies the degenerate-length case also
aborts the rest of the tick — see `update_physics_hands` below.) -/
def stepBodyTick (dt : ℚ) (b : BodyState) (tracked : Option TrackedPair) : BodyState :=
  if b.hand = Hand.Left then b
  else
    match tracked with
    | none => b
    | some tr => if tr.dirLen < 0.001 then b else stepCore dt b tr

/-- Iterated single-body ticks (each tick brings its own resolved tracked
input, or `none` when the bone span does not resolve). -/
def runTicks (dt : ℚ) (b : BodyState) (ts : List (Option TrackedPair)) : BodyState :=
  ts.foldl (stepBodyTick dt) b

/-- One body of the `bone_query` iteration together with its resolved tracked
input for this tick (`none` when `get_start_and_end_entities` returns `none`). -/
structure BodyTick where
  body : BodyState
  tracked : Option TrackedPair
deriving DecidableEq, Repr, Inhabited

/-- `update_physics_hands` from src/constants.rs (the `Some(res)` branch), over
the list of queried bodies: Left-hand bodies `continue`; an unresolved span
falls through; a measured direction length below `0.001` executes `return;`,
which ends the whole system — the current body AND every later body of this
tick are left unchanged. -/
def update_physics_hands (dt : ℚ) : List BodyTick → List BodyState
  | [] => []
  | bt :: rest =>
      if bt.body.hand = Hand.Left then bt.body :: update_physics_hands dt rest
      else
        match bt.tracked with
        | none => bt.body :: update_physics_hands dt rest
        | some tr =>
            if tr.dirLen < 0.001 then
              bt.body :: rest.map (fun r => r.body)
            else
              stepCore dt bt.body tr :: update_physics_hands dt rest

/-! ### Helper lemmas and claim-side vocabulary -/

/-- The 7 bones without physical extent (Palm, Wrist and the five tips). -/
def noSpanBones : List PhysicsHandBone :=
  [.Palm, .Wrist, .ThumbTip, .IndexTip, .MiddleTip, .RingTip, .LittleTip]

theorem Vec3.cross_self (v : Vec3) : Vec3.cross v v = Vec3.zero := by
  simp [Vec3.cross, Vec3.zero, mul_comm]

theorem Vec3.sub_self (v : Vec3) : Vec3.sub v v = Vec3.zero := by
  simp [Vec3.sub, Vec3.zero]

theorem Vec3.divScalar_zero (c : ℚ) : Vec3.divScalar Vec3.zero c = Vec3.zero := by
  simp [Vec3.divScalar, Vec3.zero]

/-- An initialized body's collider and init state survive any single tick:
the velocity-matching branch writes only the velocities. -/
theorem stepBodyTick_initialized (dt : ℚ) (b : BodyState) (o : Option TrackedPair)
    (h : b.initState = true) :
    (stepBodyTick dt b o).collider = b.collider ∧ (stepBodyTick dt b o).initState = true := by
  unfold stepBodyTick
  by_cases hL : b.hand = Hand.Left
  · simp [hL, h]
  · simp [hL]
    cases o with
    | none => simp [h]
    | some tr =>
        by_cases hd : tr.dirLen < 0.001
        · simp [hd, h]
        · simp [hd, stepCore, h]

/-- An initialized body's collider survives any sequence of ticks. -/
theorem runTicks_initialized (dt : ℚ) (ts : List (Option TrackedPair)) :
    ∀ b : BodyState, b.initState = true →
      (runTicks dt b ts).collider = b.collider := by
  induction ts with
  | nil => intro b _; rfl
  | cons o rest ih =>
      intro b h
      have hstep := stepBodyTick_initialized dt b o h
      calc (runTicks dt b (o :: rest)).collider
          = (runTicks dt (stepBodyTick dt b o) rest).collider := rfl
        _ = (stepBodyTick dt b o).collider := ih _ hstep.2
        _ = b.collider := hstep.1

/-! ### Claim C7 -/

/-- C7: `get_start_and_end_joints` returns `none` exactly for the 7 bones
Palm, Wrist, ThumbTip, IndexTip, MiddleTip, RingTip, LittleTip; and for each of
the other 19 bones, whose canonical index is `n`, it returns the pair of joint
data at canonical indices `(n, n + 1)` — two adjacent joints in the canonical
26-joint ordering. -/
theorem C7_bone_span : ∀ (bone : PhysicsHandBone) (hand : Hand),
    get_start_and_end_joints bone hand =
      if bone ∈ noSpanBones then none
      else some (joint_at hand bone.boneIndex, joint_at hand (bone.boneIndex + 1)) := by
  intro bone hand
  cases bone <;> cases hand <;> rfl

/-! ### Claim C9 -/

/-- C9: `get_physics_bone_from_index n` returns the bone with canonical
ordinal `n` (so `get_physics_bone_from_index (boneIndex b) = some b` for every
bone, in particular for every bone that spans a pair of joints), and it
panics — modelled as `none` — exactly for indices outside `0..25`. -/
theorem C9_bone_from_index :
    (∀ b : PhysicsHandBone, get_physics_bone_from_index b.boneIndex = some b) ∧
    (∀ n : Nat, get_physics_bone_from_index n = none ↔ 26 ≤ n) ∧
    (∀ (b : PhysicsHandBone) (hand : Hand),
        (get_start_and_end_joints b hand).isSome = true →
          get_physics_bone_from_index b.boneIndex = some b) := by
  refine ⟨by decide, ?_, ?_⟩
  · intro n
    rcases Nat.lt_or_ge n 26 with h | h
    · interval_cases n <;> decide
    · obtain ⟨m, rfl⟩ := Nat.exists_eq_add_of_le h
      rw [Nat.add_comm]
      exact ⟨fun _ => by omega, fun _ => rfl⟩
  · intro b _ _
    cases b <;> rfl

/-- Witness for C9: concrete instances of each part. -/
theorem C9_bone_from_index_witness :
    get_physics_bone_from_index 2 = some PhysicsHandBone.ThumbMetacarpal ∧
    get_physics_bone_from_index 26 = none :=
  ⟨C9_bone_from_index.2.2 .ThumbMetacarpal Hand.Right (by rfl),
   (C9_bone_from_index.2.1 26).mpr (by norm_num)⟩

/-! ### Claim C10 -/

/-- C10: the two right-hand calibration encodings agree: for every joint name,
`get_joint_data` for the Right hand (the hard-coded per-name literals of
`get_right_hand_joint_data`) equals `get_default_right_hand().inner[i]` at that
name's canonical index `i` — the duplicated enumeration has not drifted from
the array. -/
theorem C10_right_hand_agreement : ∀ n : NameToHandJoint,
    n.get_joint_data Hand.Right = get_default_right_hand.getD n.nameIndex default := by
  intro n
  cases n <;> rfl

/-! ### Claim C1 -/

/-- The C1 scenario's dynamic body: an initialized Right ThumbMetacarpal body
at rest at the origin whose forward direction is `+Z` (rotation = 180 degrees
about `+Y`, so `rotation * -Z = +Z`). -/
def c1_body : BodyState :=
  { transform := { translation := Vec3.zero, rotation := ⟨0, 1, 0, 0⟩ }
    collider := { a := Vec3.zero, b := Vec3.zero, radius := 0.010 }
    bone := .ThumbMetacarpal
    initState := true
    hand := .Right
    linvel := Vec3.zero
    angvel := Vec3.zero }

/-- The C1 scenario's tracked input: thumb metacarpal at the origin, thumb
proximal at `(0, 0, -0.02)`, so the measured direction length is `0.02`. -/
def c1_tracked : TrackedPair :=
  { startT := Vec3.zero, endT := ⟨0, 0, -0.02⟩, dirLen := 0.02 }

/-- C1 counterexample: in the spec's end-to-end scenario the velocity-matching
branch does NOT produce a nonzero angular velocity — the claim's conjunction
(zero linear velocity AND nonzero angular velocity) is false, because
`cross(body.forward, desired_forward)` vanishes for antiparallel vectors. -/
theorem C1_counterexample :
    ¬ ((stepBodyTick (1/60) c1_body (some c1_tracked)).linvel = Vec3.zero ∧
       (stepBodyTick (1/60) c1_body (some c1_tracked)).angvel ≠ Vec3.zero) := by
  intro hc
  apply hc.2
  norm_num [stepBodyTick, stepCore, c1_body, c1_tracked, Transform.forward, Quat.mulVec3,
    Quat.xyz, Vec3.add, Vec3.smul, Vec3.cross, Vec3.sub, Vec3.divScalar, Vec3.zero]

/-- C1 amended: in the scenario (tracked thumb metacarpal at the origin, thumb
proximal at `(0,0,-0.02)`, initialized Right ThumbMetacarpal body at rest at
the origin with forward `+Z`, `dt = 1/60`), the velocity-matching branch
assigns linear velocity exactly `(0,0,0)` AND angular velocity exactly
`(0,0,0)`: the 180-degree forward mismatch gives antiparallel vectors whose
cross product is zero, so no corrective angular velocity is produced.  The
scenario is honest: the body's forward really is `+Z`, the desired forward
really is `-Z`, and `dirLen` really is the direction's length. -/
theorem C1_scenario_velocities :
    Transform.forward c1_body.transform = ⟨0, 0, 1⟩ ∧
    Vec3.smul (1 / c1_tracked.dirLen) (Vec3.sub c1_tracked.endT c1_tracked.startT) =
      ⟨0, 0, -1⟩ ∧
    c1_tracked.wf ∧
    (stepBodyTick (1/60) c1_body (some c1_tracked)).linvel = Vec3.zero ∧
    (stepBodyTick (1/60) c1_body (some c1_tracked)).angvel = Vec3.zero := by
  refine ⟨?_, ?_, ?_, ?_, ?_⟩ <;>
    norm_num [stepBodyTick, stepCore, c1_body, c1_tracked, TrackedPair.wf, Vec3.lengthSq,
      Transform.forward, Quat.mulVec3, Quat.xyz, Vec3.add, Vec3.smul, Vec3.cross,
      Vec3.sub, Vec3.divScalar, Vec3.zero]

/-! ### Claim C2 -/

/-- Offset of a hand's block in the spawn lists (Left hand first, then Right). -/
def handOffset : Hand → Nat
  | .Left => 0
  | .Right => 26

/-- C2 counterexample: the first spawned body is a Left-hand body whose
interaction filter is NOT "all groups minus the other hand's group and the
floor group" (it is all groups minus its OWN group and the floor group), and a
Left-hand body and a Right-hand body DO produce a collision under rapier's
pair test — contradicting the claimed mutual exclusion. -/
theorem C2_counterexample :
    (spawn_physics_hands.getD 0 default).hand = Hand.Left ∧
    (spawn_physics_hands.getD 26 default).hand = Hand.Right ∧
    (spawn_physics_hands.getD 0 default).groups.filters ≠
      groupRemove (groupRemove GROUP_ALL GROUP_2) GROUP_3 ∧
    collisionAllowed (spawn_physics_hands.getD 0 default).groups
      (spawn_physics_hands.getD 26 default).groups = true := by
  refine ⟨rfl, rfl, by decide, by decide⟩

/-- C2 amended: every body spawned by `spawn_physics_hands` has membership
GROUP_1 (Left) or GROUP_2 (Right) and an interaction filter equal to the full
group set with that hand's OWN membership group and the floor group (GROUP_3)
removed.  Consequently two joint bodies of the same hand produce no collision
with each other, a hand body produces no collision with the floor, while
Left-to-Right hand collision and hand-to-scene collision (e.g. a scene body in
GROUP_4 filtering everything) remain allowed. -/
theorem C2_collision_groups :
    (∀ (hand : Hand) (i : Fin 26),
        (spawn_physics_hands.getD (handOffset hand + i.val) default).groups =
          ⟨hand_membership hand,
           groupRemove (groupRemove GROUP_ALL (hand_membership hand)) GROUP_3⟩) ∧
    (∀ hand : Hand,
        collisionAllowed ⟨hand_membership hand, hand_filter hand⟩
          ⟨hand_membership hand, hand_filter hand⟩ = false) ∧
    collisionAllowed ⟨hand_membership .Left, hand_filter .Left⟩
      ⟨hand_membership .Right, hand_filter .Right⟩ = true ∧
    (∀ hand : Hand,
        collisionAllowed ⟨hand_membership hand, hand_filter hand⟩
          ⟨GROUP_3, GROUP_ALL⟩ = false) ∧
    (∀ hand : Hand,
        collisionAllowed ⟨hand_membership hand, hand_filter hand⟩
          ⟨8, GROUP_ALL⟩ = true) := by
  refine ⟨?_, by decide, by decide, by decide, by decide⟩
  intro hand i
  cases hand <;> fin_cases i <;> rfl

/-! ### Claim C3 -/

/-- A Right-hand initialized body for the C3 failing input, placed away from
the tracked start so a live tick would change its linear velocity. -/
def c3_body : BodyState :=
  { transform := { translation := ⟨1, 0, 0⟩, rotation := ⟨0, 0, 0, 1⟩ }
    collider := { a := Vec3.zero, b := Vec3.zero, radius := 0.010 }
    bone := .ThumbMetacarpal
    initState := true
    hand := .Right
    linvel := Vec3.zero
    angvel := Vec3.zero }

/-- A degenerate tracked input (collapsed skeleton, direction length 0). -/
def c3_degenerate : TrackedPair := { startT := Vec3.zero, endT := Vec3.zero, dirLen := 0 }

/-- A live tracked input (direction length 0.02, above the 1e-3 guard). -/
def c3_live : TrackedPair := { startT := Vec3.zero, endT := ⟨0, 0, -0.02⟩, dirLen := 0.02 }

/-- C3, behavior of the code at the failing input: when the first queried body
measures a degenerate tracked length, `update_physics_hands` executes `return;`
and the SECOND body is also left unchanged for the tick — although processing
that second body alone would have changed it.  This contradicts the claim that
the skip is a no-op "for that body only" with every other body still processed
normally. -/
theorem C3_return_aborts_tick :
    update_physics_hands (1/60) [⟨c3_body, some c3_degenerate⟩, ⟨c3_body, some c3_live⟩] =
      [c3_body, c3_body] ∧
    update_physics_hands (1/60) [⟨c3_body, some c3_live⟩] ≠ [c3_body] := by
  constructor
  · norm_num [update_physics_hands, c3_body, c3_degenerate]
    exact fun h => absurd h (by decide)
  · norm_num [update_physics_hands, c3_body, c3_live, stepCore, Vec3.sub, Vec3.divScalar,
      Vec3.zero, Transform.forward, Quat.mulVec3, Quat.xyz, Vec3.add, Vec3.smul, Vec3.cross,
      BodyState.mk.injEq, Vec3.mk.injEq]
    all_goals decide

/-! ### Claim C4 -/

/-- C4 counterexample: the bodies spawned by `spawn_physics_hands` are not
dynamic — already the first one carries `RigidBody::Fixed`. -/
theorem C4_counterexample :
    (spawn_physics_hands.getD 0 default).bodyKind = RigidBodyKind.Fixed ∧
    (spawn_physics_hands.getD 0 default).bodyKind ≠ RigidBodyKind.Dynamic := by
  exact ⟨rfl, by decide⟩

/-- C4 amended: for each hand and each of the 26 calibration joints,
`spawn_physics_hands` creates one FIXED rigid body (`RigidBody::Fixed`, not
dynamic) positioned and oriented at the joint's calibrated pose, carrying a
capsule collider from `(0,-0.0575,0)` to `(0,0.0575,0)` (half-length 0.0575)
with radius `joint.radius / 2`, zero initial linear and angular velocity, the
hand's collision groups, and the uniform `Palm` bone tag; 52 bodies in all. -/
theorem C4_spawned_bodies :
    spawn_physics_hands.length = 52 ∧
    ∀ (hand : Hand) (i : Fin 26),
      spawn_physics_hands.getD (handOffset hand + i.val) default =
        { hand := hand
          translation := ((default_hand_joints hand).getD i.val default).position
          rotation := ((default_hand_joints hand).getD i.val default).orientation
          collider := { a := ⟨0, -0.0575, 0⟩, b := ⟨0, 0.0575, 0⟩,
                        radius := ((default_hand_joints hand).getD i.val default).radius / 2 }
          bodyKind := .Fixed
          linvel := Vec3.zero
          angvel := Vec3.zero
          groups := ⟨hand_membership hand, hand_filter hand⟩
          boneTag := .Palm } := by
  refine ⟨rfl, ?_⟩
  intro hand i
  cases hand <;> fin_cases i <;> rfl

/-! ### Claim C5 -/

/-- The 19 bones that have a joint span, in canonical order. -/
def spanned_hand_bones : List HandBone :=
  [.ThumbMetacarpal, .ThumbProximal, .ThumbDistal,
   .IndexMetacarpal, .IndexProximal, .IndexIntermediate, .IndexDistal,
   .MiddleMetacarpal, .MiddleProximal, .MiddleIntermediate, .MiddleDistal,
   .RingMetacarpal, .RingProximal, .RingIntermediate, .RingDistal,
   .LittleMetacarpal, .LittleProximal, .LittleIntermediate, .LittleDistal]

/-- C5 counterexample: `spawn_hand_entities` does not create 26 tracked
entities per hand (52 in total): it creates neither 52 overall nor 26 for the
Left hand. -/
theorem C5_counterexample :
    spawn_hand_entities.length ≠ 52 ∧
    (spawn_hand_entities.filter (fun e => e.hand = Hand.Left)).length ≠ 26 := by
  exact ⟨by decide, by decide⟩

/-- C5 amended: `spawn_hand_entities` creates one tracked entity per
(hand, bone-with-span) pair — 19 for the Left hand and 19 for the Right hand,
38 in total; the 7 span-less bones (Palm, Wrist and the five tips) spawn
nothing. -/
theorem C5_spawned_entities :
    spawn_hand_entities.length = 38 ∧
    (spawn_hand_entities.filter (fun e => e.hand = Hand.Left)).length = 19 ∧
    (spawn_hand_entities.filter (fun e => e.hand = Hand.Right)).length = 19 ∧
    spawn_hand_entities.map (fun e => e.bone) = spanned_hand_bones ++ spanned_hand_bones := by
  refine ⟨by decide, by decide, by decide, by decide⟩

/-! ### Claim C6 -/

/-- C6: collider initialization is one-shot.  For a Right-hand body in the
Uninitialized state whose first processed tick measures a length `L ≥ 1e-3`
(the guard does not fire), that tick replaces the collider by the capsule from
`(0,0,0)` to `(0,0,-L)` with radius 0.010 and flips the state to Initialized;
once initialized, no tick ever reassigns a body's collider, so the capsule
keeps length `L` over any later tick sequence, whatever lengths those ticks
measure. -/
theorem C6_one_shot_collider (dt : ℚ) (b : BodyState) (tr : TrackedPair)
    (ts : List (Option TrackedPair))
    (hhand : b.hand = Hand.Right) (hinit : b.initState = false)
    (hlen : ¬ tr.dirLen < 0.001) :
    (stepBodyTick dt b (some tr)).collider =
      { a := Vec3.zero, b := ⟨0, 0, -tr.dirLen⟩, radius := 0.010 } ∧
    (stepBodyTick dt b (some tr)).initState = true ∧
    (∀ (b2 : BodyState) (o : Option TrackedPair), b2.initState = true →
        (stepBodyTick dt b2 o).collider = b2.collider) ∧
    (runTicks dt (stepBodyTick dt b (some tr)) ts).collider =
      { a := Vec3.zero, b := ⟨0, 0, -tr.dirLen⟩, radius := 0.010 } := by
  have hL : ¬ b.hand = Hand.Left := by simp [hhand]
  have hstep : stepBodyTick dt b (some tr) =
      { b with collider := { a := Vec3.zero, b := ⟨0, 0, -tr.dirLen⟩, radius := 0.010 }
               initState := true } := by
    simp [stepBodyTick, hL, hlen, stepCore, hinit]
  refine ⟨by rw [hstep], by rw [hstep], ?_, ?_⟩
  · intro b2 o h2
    exact (stepBodyTick_initialized dt b2 o h2).1
  · rw [runTicks_initialized dt ts _ (by rw [hstep]), hstep]

/-- Concrete body for the C6 witness: an uninitialized Right-hand body. -/
def c6_body : BodyState :=
  { transform := { translation := Vec3.zero, rotation := ⟨0, 0, 0, 1⟩ }
    collider := { a := ⟨0, -0.0575, 0⟩, b := ⟨0, 0.0575, 0⟩, radius := 0.010 }
    bone := .ThumbMetacarpal
    initState := false
    hand := .Right
    linvel := Vec3.zero
    angvel := Vec3.zero }

/-- First tick's tracked input for the C6 witness (length 0.02). -/
def c6_first : TrackedPair := { startT := Vec3.zero, endT := ⟨0, 0, -0.02⟩, dirLen := 0.02 }

/-- Later ticks for the C6 witness: a tick whose measured length has changed to
0.04, and a tick with an unresolved bone span. -/
def c6_later : List (Option TrackedPair) :=
  [some { startT := Vec3.zero, endT := ⟨0, 0, -0.04⟩, dirLen := 0.04 }, none]

/-- Witness for C6: at the concrete input the first tick builds the capsule of
length 0.02 and later ticks (one measuring 0.04) leave it untouched. -/
theorem C6_one_shot_collider_witness :
    (stepBodyTick (1/60) c6_body (some c6_first)).collider =
      { a := Vec3.zero, b := ⟨0, 0, -(0.02 : ℚ)⟩, radius := 0.010 } ∧
    (runTicks (1/60) (stepBodyTick (1/60) c6_body (some c6_first)) c6_later).collider =
      { a := Vec3.zero, b := ⟨0, 0, -(0.02 : ℚ)⟩, radius := 0.010 } := by
  have h := C6_one_shot_collider (1/60) c6_body c6_first c6_later rfl rfl
    (by norm_num [c6_first])
  exact ⟨h.1, h.2.2.2⟩

/-! ### Claim C8 -/

/-- C8: velocity matching is idempotent at convergence.  In the
VelocityMatching branch (initialized body), if the body's translation equals
the start tracked translation and the body's forward equals the desired
forward (the normalized look direction from start toward end), then both
assigned velocities are exactly zero. -/
theorem C8_idempotent_at_convergence (dt : ℚ) (b : BodyState) (tr : TrackedPair)
    (hinit : b.initState = true)
    (htrans : b.transform.translation = tr.startT)
    (hfwd : b.transform.forward = Vec3.smul (1 / tr.dirLen) (Vec3.sub tr.endT tr.startT)) :
    (stepCore dt b tr).linvel = Vec3.zero ∧ (stepCore dt b tr).angvel = Vec3.zero := by
  have hlin : Vec3.divScalar (Vec3.sub tr.startT b.transform.translation) dt = Vec3.zero := by
    rw [htrans, Vec3.sub_self, Vec3.divScalar_zero]
  have hang : Vec3.cross b.transform.forward
      (Vec3.smul tr.dirLen⁻¹ (Vec3.sub tr.endT tr.startT)) = Vec3.zero := by
    rw [← one_div, ← hfwd, Vec3.cross_self]
  simp [stepCore, hinit, hlin, hang, Vec3.divScalar_zero]

/-- Concrete body for the C8 witness: identity rotation, so the forward
direction is `-Z`, matching the normalized direction of `c8_tracked`. -/
def c8_body : BodyState :=
  { transform := { translation := Vec3.zero, rotation := ⟨0, 0, 0, 1⟩ }
    collider := { a := Vec3.zero, b := ⟨0, 0, -0.02⟩, radius := 0.010 }
    bone := .ThumbMetacarpal
    initState := true
    hand := .Right
    linvel := ⟨1, 2, 3⟩
    angvel := ⟨4, 5, 6⟩ }

/-- Tracked input for the C8 witness: start at the body, end straight behind,
normalized desired forward `(0,0,-1)` = the body's forward. -/
def c8_tracked : TrackedPair := { startT := Vec3.zero, endT := ⟨0, 0, -0.02⟩, dirLen := 0.02 }

/-- Witness for C8: at the concrete converged input both velocities come out
exactly zero. -/
theorem C8_idempotent_at_convergence_witness :
    (stepCore (1/60) c8_body c8_tracked).linvel = Vec3.zero ∧
    (stepCore (1/60) c8_body c8_tracked).angvel = Vec3.zero :=
  C8_idempotent_at_convergence (1/60) c8_body c8_tracked rfl rfl
    (by norm_num [c8_body, c8_tracked, Transform.forward, Quat.mulVec3, Quat.xyz,
      Vec3.add, Vec3.smul, Vec3.cross, Vec3.sub, Vec3.zero])

end XrHand
